import Mathlib

/-!
Shallow embedding of the INTACT backend (`src/main.py`): study-code
allocation (`generate_new_study_ids`, `create_studies`), test submission
(`insert_test`), and CSV export (`write_single_test_type_to_csv_file`,
`get_tests_as_csv_zip_archive`).

Modelling conventions:
* MongoDB collections become Lean lists held in a `DB` record; a query
  `find_one({"study_id": x})` becomes `List.find?`.
* Python `random.randint`/sqids draws become an explicit candidate stream
  (`cands : List String`); exhausting the stream models the unbounded
  generation loop failing to terminate.
* Unhandled Python exceptions (IndexError, failed bulk insert) become
  explicit `serverError`-style outcomes; `JSONResponse(400, ...)` becomes
  `clientError` with the message.
* `datetime` values are modelled as integers (epoch milliseconds); this
  loses nothing relevant to the claims.
-/

/-- `StudyType` enum from `main.py`. -/
inductive StudyType where
  | baseline
  | followup
deriving DecidableEq, Repr

/-- `TestType` enum from `main.py`. -/
inductive TestType where
  | immediate_recall
  | delayed_recall
  | choice_reaction_time
  | visual_paired_associates
  | digit_symbol_matching
  | spatial_memory
deriving DecidableEq, Repr

/-- `ChoiceReactionTimeResult.RightOrLeft` enum. -/
inductive RightOrLeft where
  | right
  | left
deriving DecidableEq, Repr

/-- `DigitSymbolMatchingResult.OneTwoOrThree` enum. -/
inductive OneTwoOrThree where
  | one
  | two
  | three
deriving DecidableEq, Repr

/-- `ImmediateRecallResult.ZeroOneOrTwo` enum. -/
inductive ZeroOneOrTwo where
  | zero
  | one
  | two
deriving DecidableEq, Repr

/-- `DelayedRecallResult.OneToFive` enum. -/
inductive OneToFive where
  | one
  | two
  | three
  | four
  | five
deriving DecidableEq, Repr

/-- `VisualPairedAssociatesResult` pydantic model. -/
structure VisualPairedAssociatesResult where
  vpa_rt : Int
  vpa_correct : Bool
  vpa_response : String
deriving DecidableEq, Repr

/-- `ChoiceReactionTimeResult` pydantic model. -/
structure ChoiceReactionTimeResult where
  crt_rt : Int
  crt_correct : Bool
  crt_response : RightOrLeft
  crt_dwell : Int
deriving DecidableEq, Repr

/-- `DigitSymbolMatchingResult` pydantic model. -/
structure DigitSymbolMatchingResult where
  dsm_rt : Int
  dsm_correct : Bool
  dsm_response : OneTwoOrThree
deriving DecidableEq, Repr

/-- `ImmediateRecallResult` pydantic model; `ir_rt_second` is optional. -/
structure ImmediateRecallResult where
  ir_rt_first : Int
  ir_rt_second : Option Int := none
  ir_score : ZeroOneOrTwo
deriving DecidableEq, Repr

/-- `DelayedRecallResult` pydantic model. -/
structure DelayedRecallResult where
  dr_rt : Int
  dr_score : OneToFive
deriving DecidableEq, Repr

/-- `SpatialMemoryResult` pydantic model. -/
structure SpatialMemoryResult where
  sm_rt : Int
  sm_correct : Bool
deriving DecidableEq, Repr

/-- The six result classes, as runtime types: the keys of the
`result_type_to_test_type` dict in `main.py`. -/
inductive ResultVariant where
  | immediateRecallResult
  | delayedRecallResult
  | choiceReactionTimeResult
  | visualPairedAssociatesResult
  | digitSymbolMatchingResult
  | spatialMemoryResult
deriving DecidableEq, Repr

/-- The `result_type_to_test_type` mapping dict from `main.py`. -/
def result_type_to_test_type : ResultVariant → TestType
  | .immediateRecallResult => .immediate_recall
  | .delayedRecallResult => .delayed_recall
  | .choiceReactionTimeResult => .choice_reaction_time
  | .visualPairedAssociatesResult => .visual_paired_associates
  | .digitSymbolMatchingResult => .digit_symbol_matching
  | .spatialMemoryResult => .spatial_memory

/-- The `result` field's union type in `TestIn`: four list-shaped variants
and two single-record variants. -/
inductive ResultPayload where
  | vpa (qs : List VisualPairedAssociatesResult)
  | crt (qs : List ChoiceReactionTimeResult)
  | dsm (qs : List DigitSymbolMatchingResult)
  | ir (q : ImmediateRecallResult)
  | dr (q : DelayedRecallResult)
  | sm (qs : List SpatialMemoryResult)
deriving DecidableEq, Repr

/-- The runtime type that `insert_test` inspects: `type(test.result)` for a
single-shaped result, `type(test.result[0])` for a list-shaped one. For an
empty list `result[0]` raises IndexError, modelled as `none`. -/
def payloadHeadVariant : ResultPayload → Option ResultVariant
  | .vpa (_ :: _) => some .visualPairedAssociatesResult
  | .crt (_ :: _) => some .choiceReactionTimeResult
  | .dsm (_ :: _) => some .digitSymbolMatchingResult
  | .sm (_ :: _) => some .spatialMemoryResult
  | .ir _ => some .immediateRecallResult
  | .dr _ => some .delayedRecallResult
  | .vpa [] => none
  | .crt [] => none
  | .dsm [] => none
  | .sm [] => none

/-- The test-type inference performed at the top of `insert_test`:
`result_type_to_test_type[type(...)]` applied to the inspected runtime
type; `none` models the IndexError on an empty list-shaped result. -/
def inferTestType (p : ResultPayload) : Option TestType :=
  (payloadHeadVariant p).map result_type_to_test_type

/-- True exactly when the payload is one of the list-shaped variants with
zero sub-question records (the pydantic schemas accept these). -/
def payloadIsEmptyList : ResultPayload → Bool
  | .vpa [] => true
  | .crt [] => true
  | .dsm [] => true
  | .sm [] => true
  | _ => false

/-- `Study` pydantic model. -/
structure Study where
  study_id : String
  participant_id : String
  url : String
  study_type : StudyType
deriving DecidableEq, Repr

/-- `TestIn` pydantic model: the caller-supplied fields of a test.
Note there is no `test_type` field here; the caller cannot supply it. -/
structure TestIn where
  study_id : String
  time_started : Int
  time_elapsed_milliseconds : Int
  device_info : String
  result : ResultPayload
deriving DecidableEq, Repr

/-- `Test` pydantic model: `TestIn` plus the server-provided fields. -/
structure Test extends TestIn where
  test_id : String
  test_type : TestType
deriving DecidableEq, Repr

/-- The two MongoDB collections used by the service. -/
structure DB where
  studies : List Study
  tests : List Test
deriving DecidableEq, Repr

/-- Outcome of the `POST /tests` handler `insert_test`. -/
inductive InsertOutcome where
  | serverError
  | clientError (message : String)
  | ok (t : Test)
deriving DecidableEq, Repr

/-- `insert_test` from `main.py`: infer the test type from the runtime
shape of `result` (IndexError on an empty list-shaped result, modelled as
`serverError`), then check that `study_id` matches a persisted study
(400 client error if not), then assign the fresh `test_id` and insert.
`freshId` stands for `str(ObjectId())`. Returns the outcome together with
the post-state of the database. -/
def insert_test (db : DB) (freshId : String) (test : TestIn) :
    InsertOutcome × DB :=
  match inferTestType test.result with
  | none => (.serverError, db)
  | some tt =>
    match db.studies.find? (fun s => s.study_id = test.study_id) with
    | none =>
      (.clientError ("Could not find study with id " ++ test.study_id), db)
    | some _ =>
      let t : Test :=
        { toTestIn := test, test_id := freshId, test_type := tt }
      (.ok t, { db with tests := db.tests ++ [t] })

example :
    insert_test ⟨[], []⟩ "t1"
      ⟨"abcd", 0, 0, "dev", .sm []⟩ =
      (.serverError, ⟨[], []⟩) := by decide

example :
    insert_test ⟨[⟨"abcd", "p1", "u", .baseline⟩], []⟩ "t1"
      ⟨"abcd", 0, 0, "dev", .ir ⟨5, none, .two⟩⟩ =
      (.ok ⟨⟨"abcd", 0, 0, "dev", .ir ⟨5, none, .two⟩⟩, "t1",
        .immediate_recall⟩,
       ⟨[⟨"abcd", "p1", "u", .baseline⟩],
        [⟨⟨"abcd", 0, 0, "dev", .ir ⟨5, none, .two⟩⟩, "t1",
          .immediate_recall⟩]⟩) := by decide

/-- Python truthiness/emptiness of its argument aside, Python
`str.isalnum()`: nonempty and every character alphanumeric. Modelled over
the ASCII alphanumeric predicate, which agrees with Python on the inputs
this service documents (alphanumeric participant IDs). -/
def pyIsAlnum (s : String) : Bool :=
  !s.isEmpty && s.data.all Char.isAlphanum

/-- Python `str.rstrip(c)`: drop trailing occurrences of `c`. -/
def pyRstrip (s : String) (c : Char) : String :=
  ⟨(s.data.reverse.dropWhile (· = c)).reverse⟩

/-- `settings.study_url_prefix` default value from `main.py`. -/
def study_url_root : String := "https://intact.sail.codes"

/-- The loop body of `generate_new_study_ids`: draw candidates in order
from `cands` (modelling the sqids-encoded random draws), skip any already
persisted (`studies.find` non-empty) and de-duplicate against the batch
set, until `number` codes are collected. The accumulator is a list kept
duplicate-free, standing for the Python `set`; exhausting `cands` models
the loop failing to terminate, and yields `none`. -/
def genLoop (persisted : List String) (number : Nat) :
    List String → List String → Option (List String)
  | [], acc => if number ≤ acc.length then some acc else none
  | c :: cs, acc =>
    if number ≤ acc.length then some acc
    else if c ∈ persisted then genLoop persisted number cs acc
    else if c ∈ acc then genLoop persisted number cs acc
    else genLoop persisted number cs (c :: acc)

/-- `generate_new_study_ids` from `main.py`, with the random draws made
explicit as `cands`: collect `number` fresh codes, none equal to a
persisted `study_id` and none repeated within the batch. -/
def generate_new_study_ids (db : DB) (cands : List String) (number : Nat) :
    Option (List String) :=
  genLoop (db.studies.map (fun s => s.study_id)) number cands []

/-- Builds one `Study` record as `create_studies` does. -/
def mkStudy (sid pid : String) (st : StudyType) : Study :=
  { study_id := sid, participant_id := pid,
    url := pyRstrip study_url_root '/' ++ "/" ++ sid, study_type := st }

/-- Result of the per-participant loop of `create_studies`: either a
non-alphanumeric participant ID was hit (early `return` with a 400), or
the full list of records to insert was built. -/
inductive BuildResult where
  | badPid
  | records (rs : List Study)
deriving DecidableEq, Repr

/-- The per-participant loop of `create_studies`: skip blank IDs, reject
non-alphanumeric IDs, otherwise pop `b` codes for baseline studies and
then `f` codes for followup studies from the allocated pool. The pool is
a list consumed from the front (one resolution of Python's arbitrary
`set.pop` order); `none` models popping from an exhausted pool, which the
caller makes unreachable. -/
def buildLoop (b f : Nat) :
    List String → List String → List Study → Option BuildResult
  | [], _, acc => some (.records acc)
  | pid :: rest, ids, acc =>
    if pid = "" then buildLoop b f rest ids acc
    else if !pyIsAlnum pid then some .badPid
    else if b + f ≤ ids.length then
      buildLoop b f rest (ids.drop (b + f))
        (acc ++ ((ids.take b).map (fun sid => mkStudy sid pid .baseline) ++
          ((ids.drop b).take f).map (fun sid => mkStudy sid pid .followup)))
    else none

/-- 400 message for a negative count in `create_studies`. -/
def msgNonnegative : String :=
  "baselines_per_participant and followups_per_participant must be nonnegative"

/-- 400 message when both counts are zero in `create_studies`. -/
def msgNotBothZero : String :=
  "At least one of baselines_per_participant and followups_per_participant must be nonzero"

/-- 400 message for an empty participant list in `create_studies`. -/
def msgEmptyList : String := "Received empty participant list"

/-- 400 message for an oversized batch in `create_studies`. -/
def msgTooMany : String :=
  "Too many studies requested, or too many empty lines in file; please contact SAIL for assistance."

/-- 400 message for a non-alphanumeric participant ID in `create_studies`. -/
def msgBadPid : String := "Non-alphanumeric participant IDs are not allowed"

/-- Outcome of `create_studies`. `allocationHang` models the unbounded
generation loop never terminating (candidate stream exhausted);
`serverError` models an exception escaping the handler (in particular the
`insert_many` of an empty record list, which pymongo rejects). -/
inductive CreateOutcome where
  | clientError (message : String)
  | allocationHang
  | serverError
  | ok (records : List Study)
deriving DecidableEq, Repr

/-- `create_studies` from `main.py`, with the random candidate stream made
explicit: the four validation gates in source order, then batch allocation
of all `len(participant_ids) * (baselines + followups)` codes, then the
per-participant record-building loop, then a single bulk insert. Returns
the outcome together with the post-state of the database. -/
def create_studies (db : DB) (cands : List String)
    (participant_ids : List String)
    (baselines_per_participant followups_per_participant : Int) :
    CreateOutcome × DB :=
  if baselines_per_participant < 0 ∨ followups_per_participant < 0 then
    (.clientError msgNonnegative, db)
  else if baselines_per_participant = 0 ∧ followups_per_participant = 0 then
    (.clientError msgNotBothZero, db)
  else if participant_ids.length = 0 then
    (.clientError msgEmptyList, db)
  else if 1000 <
      (participant_ids.length : Int) *
        (baselines_per_participant + followups_per_participant) then
    (.clientError msgTooMany, db)
  else
    match generate_new_study_ids db cands
        (participant_ids.length *
          (baselines_per_participant + followups_per_participant).toNat) with
    | none => (.allocationHang, db)
    | some ids =>
      match buildLoop baselines_per_participant.toNat
          followups_per_participant.toNat participant_ids ids [] with
      | none => (.serverError, db)
      | some .badPid => (.clientError msgBadPid, db)
      | some (.records rs) =>
        if rs = [] then (.serverError, db)
        else (.ok rs, { db with studies := db.studies ++ rs })

example :
    genLoop ["abcd"] 2 ["abcd", "efgh", "efgh", "ijkl"] [] =
      some ["ijkl", "efgh"] := by decide

example :
    (create_studies ⟨[], []⟩ ["aaaa", "bbbb"] [""] 1 1).1 =
      .serverError := by decide

/-- The fields of a `Test` other than `result` and `study_id`: what remains
of the test dict after the two `pop`s in
`write_single_test_type_to_csv_file`, constant across all rows of one test. -/
structure TestCommon where
  time_started : Int
  time_elapsed_milliseconds : Int
  device_info : String
  test_id : String
  test_type : TestType
deriving DecidableEq, Repr

/-- Projection of a `Test` onto its row-constant fields. -/
def Test.common (t : Test) : TestCommon :=
  { time_started := t.time_started,
    time_elapsed_milliseconds := t.time_elapsed_milliseconds,
    device_info := t.device_info,
    test_id := t.test_id, test_type := t.test_type }

/-- One per-question record, tagged by variant: the dict that
`test.update(question)` merges into a row. -/
inductive Question where
  | vpa (q : VisualPairedAssociatesResult)
  | crt (q : ChoiceReactionTimeResult)
  | dsm (q : DigitSymbolMatchingResult)
  | ir (q : ImmediateRecallResult)
  | dr (q : DelayedRecallResult)
  | sm (q : SpatialMemoryResult)
deriving DecidableEq, Repr

/-- The per-question records of a payload: one per element for list-shaped
results (the `isinstance(test_result, list)` branch), a single one for the
single-shaped results (the `else` branch). -/
def payloadQuestions : ResultPayload → List Question
  | .vpa qs => qs.map .vpa
  | .crt qs => qs.map .crt
  | .dsm qs => qs.map .dsm
  | .ir q => [.ir q]
  | .dr q => [.dr q]
  | .sm qs => qs.map .sm

/-- One CSV data row: the row-constant Test fields, this row's per-question
fields, and the joined Study fields. -/
structure Row where
  common : TestCommon
  question : Question
  study : Study
deriving DecidableEq, Repr

/-- Python truthiness of the optional `participant_id` form field: `None`
and the empty string are both falsy. -/
def pyTruthy : Option String → Bool
  | none => false
  | some s => !s.isEmpty

/-- The per-test body of the export loop in
`write_single_test_type_to_csv_file`: join the study by `study_id`
(`none` models the AttributeError/TypeError crash when no study matches),
apply the `participant_id` filter (`continue` contributes no rows), then
emit one row per question. -/
def rowsForTest (studies : List Study) (pfilter : Option String) (t : Test) :
    Option (List Row) :=
  match studies.find? (fun s => s.study_id = t.study_id) with
  | none => none
  | some s =>
    if pyTruthy pfilter && (s.participant_id != pfilter.getD "") then some []
    else some ((payloadQuestions t.result).map (fun q => ⟨t.common, q, s⟩))

/-- The `for test in all_tests` loop of
`write_single_test_type_to_csv_file`: emit each test's rows in order,
aborting (`none`) if some test's study join crashes. -/
def exportLoop (studies : List Study) (pfilter : Option String) :
    List Test → Option (List Row)
  | [] => some []
  | t :: ts =>
    match rowsForTest studies pfilter t with
    | none => none
    | some rs => (exportLoop studies pfilter ts).map (fun rest => rs ++ rest)

/-- The data rows written by `write_single_test_type_to_csv_file`: the
persisted tests of the requested type, in insertion order, each flattened
into per-question rows joined with its study. The emitted file is the
header line followed by exactly these rows. -/
def write_single_test_type_to_csv_file (db : DB) (tt : TestType)
    (pfilter : Option String) : Option (List Row) :=
  exportLoop db.studies pfilter (db.tests.filter (fun t => t.test_type = tt))

/-- `Test.model_fields` keys after popping `result` and `study_id`. -/
def testFieldKeys : Finset String :=
  {"time_started", "time_elapsed_milliseconds", "device_info", "test_id",
   "test_type"}

/-- `model_fields` keys of `test_type_to_result_type[test_type]`. -/
def resultFieldKeys : TestType → Finset String
  | .immediate_recall => {"ir_rt_first", "ir_rt_second", "ir_score"}
  | .delayed_recall => {"dr_rt", "dr_score"}
  | .choice_reaction_time => {"crt_rt", "crt_correct", "crt_response",
      "crt_dwell"}
  | .visual_paired_associates => {"vpa_rt", "vpa_correct", "vpa_response"}
  | .digit_symbol_matching => {"dsm_rt", "dsm_correct", "dsm_response"}
  | .spatial_memory => {"sm_rt", "sm_correct"}

/-- `Study.model_fields` keys. -/
def studyFieldKeys : Finset String :=
  {"study_id", "participant_id", "url", "study_type"}

/-- The `fieldnames` value handed to `csv.DictWriter`: the source computes
it with `^=`, Python set symmetric difference, so the result is an
*unordered* `set` of field names; only its contents are determined. -/
def csvFieldNames (tt : TestType) : Finset String :=
  symmDiff (symmDiff testFieldKeys (resultFieldKeys tt)) studyFieldKeys

/-- A possible header line of the CSV for `tt`: some iteration order of
the unordered `fieldnames` set. Any such order can be emitted, depending
on the process's string hashing. -/
def isHeaderOrder (tt : TestType) (o : List String) : Prop :=
  o.Nodup ∧ o.toFinset = csvFieldNames tt

/-- Iteration order of `for test_type in TestType` (declaration order). -/
def allTestTypes : List TestType :=
  [.immediate_recall, .delayed_recall, .choice_reaction_time,
   .visual_paired_associates, .digit_symbol_matching, .spatial_memory]

/-- `TestType.value` strings of the `StrEnum` (`enum.auto` lowercases the
member name). -/
def testTypeValue : TestType → String
  | .immediate_recall => "immediate_recall"
  | .delayed_recall => "delayed_recall"
  | .choice_reaction_time => "choice_reaction_time"
  | .visual_paired_associates => "visual_paired_associates"
  | .digit_symbol_matching => "digit_symbol_matching"
  | .spatial_memory => "spatial_memory"

/-- `get_tests_as_csv_zip_archive`: one CSV per test type, named
`<value>.csv`, each produced by `write_single_test_type_to_csv_file` with
the same `participant_id` filter, bundled in enum order. -/
def get_tests_as_csv_zip_archive (db : DB) (pfilter : Option String) :
    List (String × Option (List Row)) :=
  allTestTypes.map (fun tt =>
    (testTypeValue tt ++ ".csv", write_single_test_type_to_csv_file db tt pfilter))

example :
    write_single_test_type_to_csv_file
      ⟨[⟨"abcd", "p1", "u", .baseline⟩],
       [⟨⟨"abcd", 0, 0, "d", .sm [⟨1, true⟩, ⟨2, false⟩]⟩, "t1",
         .spatial_memory⟩]⟩
      .spatial_memory none =
      some [⟨⟨0, 0, "d", "t1", .spatial_memory⟩, .sm ⟨1, true⟩,
              ⟨"abcd", "p1", "u", .baseline⟩⟩,
            ⟨⟨0, 0, "d", "t1", .spatial_memory⟩, .sm ⟨2, false⟩,
              ⟨"abcd", "p1", "u", .baseline⟩⟩] := by decide

/-- C2: for every submitted test whose result payload has a determinate
variant shape (a single-shaped record, or a nonempty list of one of the
four list variants) and whose study exists, `insert_test` persists a test
whose `test_type` is exactly `result_type_to_test_type` applied to that
variant; the caller-supplied `TestIn` has no `test_type` field, so the
type is always derived by this fixed mapping, symmetrically over all six
shapes. -/
theorem insert_test_derives_test_type
    (db : DB) (freshId : String) (tin : TestIn) (v : ResultVariant)
    (st : Study)
    (hv : payloadHeadVariant tin.result = some v)
    (hs : db.studies.find? (fun s => s.study_id = tin.study_id) = some st) :
    insert_test db freshId tin =
      (.ok { toTestIn := tin, test_id := freshId,
             test_type := result_type_to_test_type v },
       { db with tests := db.tests ++
           [{ toTestIn := tin, test_id := freshId,
              test_type := result_type_to_test_type v }] }) := by
  simp [insert_test, inferTestType, hv, hs]

/-- Witness for C2: an ImmediateRecall-shaped submission yields
`test_type = immediate_recall`. -/
theorem insert_test_derives_test_type_witness :
    insert_test ⟨[⟨"abcd", "pa", "u", .baseline⟩], []⟩ "t1"
        ⟨"abcd", 0, 0, "d", .ir ⟨5, none, .two⟩⟩ =
      (.ok ⟨⟨"abcd", 0, 0, "d", .ir ⟨5, none, .two⟩⟩, "t1",
        .immediate_recall⟩,
       ⟨[⟨"abcd", "pa", "u", .baseline⟩],
        [⟨⟨"abcd", 0, 0, "d", .ir ⟨5, none, .two⟩⟩, "t1",
          .immediate_recall⟩]⟩) :=
  insert_test_derives_test_type ⟨[⟨"abcd", "pa", "u", .baseline⟩], []⟩ "t1"
    ⟨"abcd", 0, 0, "d", .ir ⟨5, none, .two⟩⟩ .immediateRecallResult
    ⟨"abcd", "pa", "u", .baseline⟩ (by decide) (by decide)

/-- C3 counterexample: a submission whose result is an empty list-shaped
payload and whose `study_id` matches no study is answered with a server
error (the IndexError from `test.result[0]`), not the 'study not found'
client error the claim requires. -/
theorem insert_test_unknown_study_counterexample :
    insert_test ⟨[], []⟩ "t1" ⟨"zzzz", 0, 0, "d", .sm []⟩ =
      (.serverError, ⟨[], []⟩) ∧
    ∀ m, (InsertOutcome.serverError : InsertOutcome) ≠ .clientError m := by
  refine ⟨by decide, fun m h => InsertOutcome.noConfusion h⟩

/-- C3 (amended): for every submission whose result's test type is
inferable (single-shaped, or a nonempty list-shaped payload) and whose
`study_id` matches no persisted study, `insert_test` answers with the 400
'study not found' client error and leaves the database — in particular
the tests collection — unchanged. -/
theorem insert_test_unknown_study_rejected
    (db : DB) (freshId : String) (tin : TestIn) (tt : TestType)
    (hinf : inferTestType tin.result = some tt)
    (hns : db.studies.find? (fun s => s.study_id = tin.study_id) = none) :
    insert_test db freshId tin =
      (.clientError ("Could not find study with id " ++ tin.study_id),
       db) := by
  simp [insert_test, hinf, hns]

/-- Witness for the amended C3. -/
theorem insert_test_unknown_study_rejected_witness :
    insert_test ⟨[], []⟩ "t1" ⟨"zzzz", 0, 0, "d", .dr ⟨3, .five⟩⟩ =
      (.clientError ("Could not find study with id " ++ "zzzz"),
       (⟨[], []⟩ : DB)) :=
  insert_test_unknown_study_rejected ⟨[], []⟩ "t1"
    ⟨"zzzz", 0, 0, "d", .dr ⟨3, .five⟩⟩ .delayed_recall (by decide)
    (by decide)

/-- C10: a submission whose result is an empty list (accepted by the
schemas, e.g. a SpatialMemory result of length 0) makes `insert_test`
evaluate `test.result[0]` and fail with an unhandled IndexError — a
server error — whatever the database contents, so before and regardless
of the study-existence check, and with nothing persisted. -/
theorem insert_test_empty_list_is_server_error
    (db : DB) (freshId : String) (tin : TestIn)
    (h : payloadIsEmptyList tin.result = true) :
    insert_test db freshId tin = (.serverError, db) := by
  have hnone : inferTestType tin.result = none := by
    rcases tin with ⟨sid, ts, tem, dev, result⟩
    cases result with
    | vpa qs => cases qs with
      | nil => rfl
      | cons q qs => simp [payloadIsEmptyList] at h
    | crt qs => cases qs with
      | nil => rfl
      | cons q qs => simp [payloadIsEmptyList] at h
    | dsm qs => cases qs with
      | nil => rfl
      | cons q qs => simp [payloadIsEmptyList] at h
    | sm qs => cases qs with
      | nil => rfl
      | cons q qs => simp [payloadIsEmptyList] at h
    | ir q => simp [payloadIsEmptyList] at h
    | dr q => simp [payloadIsEmptyList] at h
  simp [insert_test, hnone]

/-- Witness for C10: the study exists, yet the empty-list submission
still fails with the server error and persists nothing, showing the
inference runs before the study check. -/
theorem insert_test_empty_list_is_server_error_witness :
    insert_test ⟨[⟨"abcd", "pa", "u", .baseline⟩], []⟩ "t1"
        ⟨"abcd", 0, 0, "d", .sm []⟩ =
      (.serverError, (⟨[⟨"abcd", "pa", "u", .baseline⟩], []⟩ : DB)) :=
  insert_test_empty_list_is_server_error
    ⟨[⟨"abcd", "pa", "u", .baseline⟩], []⟩ "t1"
    ⟨"abcd", 0, 0, "d", .sm []⟩ (by decide)

/-- Any row contributed by one test under a supplied nonempty
`participant_id` filter has exactly that participant. -/
lemma rowsForTest_filter_mem (studies : List Study) (p : String) (t : Test)
    (l : List Row) (hp : p ≠ "")
    (h : rowsForTest studies (some p) t = some l) :
    ∀ r ∈ l, r.study.participant_id = p := by
  intro r hr
  unfold rowsForTest at h
  split at h
  · cases h
  · rename_i s hf
    split at h
    · injection h with h
      subst h
      cases hr
    · rename_i hcond
      injection h with h
      subst h
      have hE : p.isEmpty = false := by
        cases hE : p.isEmpty
        · rfl
        · exact absurd ((String.isEmpty_iff p).mp hE) hp
      have hpid : s.participant_id = p := by
        simp [pyTruthy, hE] at hcond
        exact hcond
      simp only [List.mem_map] at hr
      rcases hr with ⟨q, _, rfl⟩
      exact hpid

/-- Lifts `rowsForTest_filter_mem` through the export loop. -/
lemma exportLoop_filter_mem (studies : List Study) (p : String)
    (hp : p ≠ "") :
    ∀ (ts : List Test) (rows : List Row),
      exportLoop studies (some p) ts = some rows →
      ∀ r ∈ rows, r.study.participant_id = p := by
  intro ts
  induction ts with
  | nil =>
    intro rows h r hr
    unfold exportLoop at h
    injection h with h
    subst h
    cases hr
  | cons t ts ih =>
    intro rows h r hr
    unfold exportLoop at h
    split at h
    · cases h
    · rename_i l hf
      rcases he : exportLoop studies (some p) ts with _ | rest
      · rw [he] at h; cases h
      · rw [he, Option.map_some'] at h
        injection h with h
        subst h
        rcases List.mem_append.mp hr with hrl | hrr
        · exact rowsForTest_filter_mem studies p t l hp hf r hrl
        · exact ih rest he r hrr

/-- C9 (amended): when a *nonempty* `participant_id` filter is supplied,
every emitted row's joined Study has exactly that participant id; the
comparison is made against the joined Study record, i.e. after the join.
(A supplied but empty filter is falsy in Python and disables filtering —
see the counterexample.) -/
theorem export_participant_filter_rows
    (db : DB) (tt : TestType) (p : String) (rows : List Row)
    (hp : p ≠ "")
    (h : write_single_test_type_to_csv_file db tt (some p) = some rows)
    (r : Row) (hr : r ∈ rows) :
    r.study.participant_id = p :=
  exportLoop_filter_mem db.studies p hp _ rows h r hr

/-- Witness for the amended C9: with studies for "alice" and "bob" and one
delayed-recall test each, filtering by "alice" emits only the alice row. -/
theorem export_participant_filter_rows_witness :
    (⟨⟨0, 0, "d", "t1", .delayed_recall⟩, .dr ⟨3, .five⟩,
      ⟨"abcd", "alice", "u", .baseline⟩⟩ : Row).study.participant_id =
      "alice" :=
  export_participant_filter_rows
    ⟨[⟨"abcd", "alice", "u", .baseline⟩, ⟨"efgh", "bob", "u2", .followup⟩],
     [⟨⟨"abcd", 0, 0, "d", .dr ⟨3, .five⟩⟩, "t1", .delayed_recall⟩,
      ⟨⟨"efgh", 1, 1, "d2", .dr ⟨4, .one⟩⟩, "t2", .delayed_recall⟩]⟩
    .delayed_recall "alice"
    [⟨⟨0, 0, "d", "t1", .delayed_recall⟩, .dr ⟨3, .five⟩,
      ⟨"abcd", "alice", "u", .baseline⟩⟩]
    (by decide) (by decide) _ (by decide)

/-- C9 counterexample: the filter `participant_id = ""` is supplied but
falsy in Python (`if participant_id and ...`), so filtering is disabled
and a row for participant "a1" (≠ "") is emitted. -/
theorem export_empty_filter_counterexample :
    write_single_test_type_to_csv_file
        ⟨[⟨"abcd", "a1", "u", .baseline⟩],
         [⟨⟨"abcd", 0, 0, "d", .dr ⟨3, .five⟩⟩, "t1", .delayed_recall⟩]⟩
        .delayed_recall (some "") =
      some [⟨⟨0, 0, "d", "t1", .delayed_recall⟩, .dr ⟨3, .five⟩,
            ⟨"abcd", "a1", "u", .baseline⟩⟩] ∧
    ("a1" : String) ≠ "" :=
  ⟨by decide, by decide⟩

/-- C6: a test whose study join succeeds and which passes the filter
contributes exactly one row per sub-question record — `k` rows for a
list-shaped result with `k` records, one row for a single-shaped result —
and every one of its rows carries the same row-constant Test fields and
the same joined Study fields, differing only in the per-question fields. -/
theorem export_one_row_per_question
    (studies : List Study) (pfilter : Option String) (t : Test) (s : Study)
    (rows : List Row)
    (hjoin : studies.find? (fun st => st.study_id = t.study_id) = some s)
    (hpass :
      (pyTruthy pfilter && (s.participant_id != pfilter.getD "")) = false)
    (hrows : rowsForTest studies pfilter t = some rows) :
    rows =
      (payloadQuestions t.result).map (fun q => ⟨t.common, q, s⟩) ∧
    rows.length = (payloadQuestions t.result).length ∧
    (∀ qs, t.result = ResultPayload.vpa qs → rows.length = qs.length) ∧
    (∀ qs, t.result = ResultPayload.crt qs → rows.length = qs.length) ∧
    (∀ qs, t.result = ResultPayload.dsm qs → rows.length = qs.length) ∧
    (∀ qs, t.result = ResultPayload.sm qs → rows.length = qs.length) ∧
    (∀ q, t.result = ResultPayload.ir q → rows.length = 1) ∧
    (∀ q, t.result = ResultPayload.dr q → rows.length = 1) ∧
    ∀ r ∈ rows, r.common = t.common ∧ r.study = s := by
  have hr :
      rows = (payloadQuestions t.result).map (fun q => ⟨t.common, q, s⟩) := by
    unfold rowsForTest at hrows
    rw [hjoin] at hrows
    simp only [hpass] at hrows
    simp at hrows
    exact hrows.symm
  subst hr
  refine ⟨rfl, by simp, ?_, ?_, ?_, ?_, ?_, ?_, ?_⟩
  · intro qs hq; simp [hq, payloadQuestions]
  · intro qs hq; simp [hq, payloadQuestions]
  · intro qs hq; simp [hq, payloadQuestions]
  · intro qs hq; simp [hq, payloadQuestions]
  · intro q hq; simp [hq, payloadQuestions]
  · intro q hq; simp [hq, payloadQuestions]
  · intro r hr
    simp only [List.mem_map] at hr
    rcases hr with ⟨q, _, rfl⟩
    exact ⟨rfl, rfl⟩

/-- Witness for C6: a SpatialMemory result with 2 sub-questions yields
exactly 2 rows. -/
theorem export_one_row_per_question_witness :
    ([⟨⟨0, 0, "d", "t1", .spatial_memory⟩, .sm ⟨1, true⟩,
        ⟨"abcd", "p1", "u", .baseline⟩⟩,
      ⟨⟨0, 0, "d", "t1", .spatial_memory⟩, .sm ⟨2, false⟩,
        ⟨"abcd", "p1", "u", .baseline⟩⟩] : List Row).length =
      (payloadQuestions (.sm [⟨1, true⟩, ⟨2, false⟩])).length :=
  (export_one_row_per_question [⟨"abcd", "p1", "u", .baseline⟩] none
    ⟨⟨"abcd", 0, 0, "d", .sm [⟨1, true⟩, ⟨2, false⟩]⟩, "t1",
      .spatial_memory⟩
    ⟨"abcd", "p1", "u", .baseline⟩
    [⟨⟨0, 0, "d", "t1", .spatial_memory⟩, .sm ⟨1, true⟩,
        ⟨"abcd", "p1", "u", .baseline⟩⟩,
     ⟨⟨0, 0, "d", "t1", .spatial_memory⟩, .sm ⟨2, false⟩,
        ⟨"abcd", "p1", "u", .baseline⟩⟩]
    (by decide) (by decide) (by decide)).2.1

/-- A test whose joined study is excluded by a truthy filter contributes
no rows. -/
lemma rowsForTest_filtered_out (studies : List Study)
    (pfilter : Option String) (t : Test) (s : Study)
    (hjoin : studies.find? (fun st => st.study_id = t.study_id) = some s)
    (htr : pyTruthy pfilter = true)
    (hne : (s.participant_id != pfilter.getD "") = true) :
    rowsForTest studies pfilter t = some [] := by
  unfold rowsForTest
  rw [hjoin]
  simp [htr, hne]

/-- If every test in the list contributes no rows, the export loop
produces no rows. -/
lemma exportLoop_all_empty (studies : List Study) (pfilter : Option String) :
    ∀ ts : List Test,
      (∀ t ∈ ts, rowsForTest studies pfilter t = some []) →
      exportLoop studies pfilter ts = some [] := by
  intro ts
  induction ts with
  | nil => intro _; rfl
  | cons t ts ih =>
    intro h
    unfold exportLoop
    rw [h t (List.mem_cons_self t ts),
      ih (fun u hu => h u (List.mem_cons_of_mem t hu))]
    rfl

/-- C8: when zero tests match a test type (after the participant filter:
every persisted test of that type, if any, is excluded by a truthy
filter), the export still succeeds and emits zero data rows, i.e. the CSV
file is exactly the header; and the bundled ZIP export always contains
one CSV per test type — six files — including such a header-only file for
this type. -/
theorem export_zero_matches_header_only
    (db : DB) (pfilter : Option String) (tt : TestType)
    (h : ∀ t ∈ db.tests, t.test_type = tt →
      ∃ s, db.studies.find? (fun st => st.study_id = t.study_id) = some s ∧
        pyTruthy pfilter = true ∧
        (s.participant_id != pfilter.getD "") = true) :
    write_single_test_type_to_csv_file db tt pfilter = some [] ∧
    (get_tests_as_csv_zip_archive db pfilter).length = 6 ∧
    (testTypeValue tt ++ ".csv", some ([] : List Row)) ∈
      get_tests_as_csv_zip_archive db pfilter := by
  have hw : write_single_test_type_to_csv_file db tt pfilter = some [] := by
    unfold write_single_test_type_to_csv_file
    apply exportLoop_all_empty
    intro t ht
    have hmem := List.mem_filter.mp ht
    rcases h t hmem.1 (by simpa using hmem.2) with ⟨s, hj, htr, hne⟩
    exact rowsForTest_filtered_out db.studies pfilter t s hj htr hne
  refine ⟨hw, by simp [get_tests_as_csv_zip_archive, allTestTypes], ?_⟩
  unfold get_tests_as_csv_zip_archive
  have htt : tt ∈ allTestTypes := by cases tt <;> simp [allTestTypes]
  simp only [List.mem_map]
  exact ⟨tt, htt, by rw [hw]⟩

/-- Witness for C8: one spatial-memory test belonging to "alice", export
filtered by "bob": the spatial-memory CSV is header-only, and all six
per-type files are present in the archive. -/
theorem export_zero_matches_header_only_witness :
    write_single_test_type_to_csv_file
        ⟨[⟨"abcd", "alice", "u", .baseline⟩],
         [⟨⟨"abcd", 0, 0, "d", .sm [⟨1, true⟩]⟩, "t1", .spatial_memory⟩]⟩
        .spatial_memory (some "bob") = some [] ∧
    (get_tests_as_csv_zip_archive
        ⟨[⟨"abcd", "alice", "u", .baseline⟩],
         [⟨⟨"abcd", 0, 0, "d", .sm [⟨1, true⟩]⟩, "t1", .spatial_memory⟩]⟩
        (some "bob")).length = 6 ∧
    (testTypeValue .spatial_memory ++ ".csv", some ([] : List Row)) ∈
      get_tests_as_csv_zip_archive
        ⟨[⟨"abcd", "alice", "u", .baseline⟩],
         [⟨⟨"abcd", 0, 0, "d", .sm [⟨1, true⟩]⟩, "t1", .spatial_memory⟩]⟩
        (some "bob") :=
  export_zero_matches_header_only
    ⟨[⟨"abcd", "alice", "u", .baseline⟩],
     [⟨⟨"abcd", 0, 0, "d", .sm [⟨1, true⟩]⟩, "t1", .spatial_memory⟩]⟩
    (some "bob") .spatial_memory
    (by
      intro t ht htt
      have hts : t =
          ⟨⟨"abcd", 0, 0, "d", .sm [⟨1, true⟩]⟩, "t1", .spatial_memory⟩ := by
        simpa using ht
      subst hts
      exact ⟨⟨"abcd", "alice", "u", .baseline⟩, by decide, by decide,
        by decide⟩)

/-- C7 is false of the code: the `fieldnames` handed to `csv.DictWriter`
is a Python `set` (built with `^=`), whose iteration order depends on the
process's randomized string hashing; both orders below are legitimate
iteration orders of that set for the delayed-recall export, and they
differ, so the header field order is not determined by the persisted
state. -/
theorem csv_header_order_underdetermined :
    ∃ o₁ o₂ : List String,
      isHeaderOrder .delayed_recall o₁ ∧ isHeaderOrder .delayed_recall o₂ ∧
        o₁ ≠ o₂ := by
  refine ⟨["time_started", "time_elapsed_milliseconds", "device_info",
      "test_id", "test_type", "dr_rt", "dr_score", "study_id",
      "participant_id", "url", "study_type"],
    ["dr_rt", "dr_score", "study_id", "participant_id", "url",
      "study_type", "time_started", "time_elapsed_milliseconds",
      "device_info", "test_id", "test_type"],
    ⟨?_, ?_⟩, ⟨?_, ?_⟩, ?_⟩ <;> decide

/-- Soundness of the generation loop: starting from a duplicate-free,
fresh, not-yet-full accumulator, a terminating run returns exactly
`number` codes, pairwise distinct and distinct from every persisted code. -/
lemma genLoop_sound (persisted : List String) (number : Nat) :
    ∀ (cands acc ids : List String),
      acc.Nodup → (∀ x ∈ acc, x ∉ persisted) → acc.length ≤ number →
      genLoop persisted number cands acc = some ids →
      ids.length = number ∧ ids.Nodup ∧ ∀ x ∈ ids, x ∉ persisted := by
  intro cands
  induction cands with
  | nil =>
    intro acc ids hnd hfr hle h
    unfold genLoop at h
    split at h
    · rename_i hge
      injection h with h
      subst h
      exact ⟨le_antisymm hle hge, hnd, hfr⟩
    · cases h
  | cons c cs ih =>
    intro acc ids hnd hfr hle h
    unfold genLoop at h
    split at h
    · rename_i hge
      injection h with h
      subst h
      exact ⟨le_antisymm hle hge, hnd, hfr⟩
    · rename_i hlt
      split at h
      · exact ih acc ids hnd hfr hle h
      · rename_i hcp
        split at h
        · exact ih acc ids hnd hfr hle h
        · rename_i hca
          refine ih (c :: acc) ids (List.nodup_cons.mpr ⟨hca, hnd⟩) ?_ ?_ h
          · intro x hx
            rcases List.mem_cons.mp hx with rfl | hx
            · exact hcp
            · exact hfr x hx
          · simpa using Nat.succ_le_of_lt (Nat.lt_of_not_le hlt)

/-- With enough allocated codes, the record-building loop never exhausts
the pool. -/
lemma buildLoop_not_none (b f : Nat) :
    ∀ (pids ids : List String) (acc : List Study),
      pids.length * (b + f) ≤ ids.length →
      buildLoop b f pids ids acc ≠ none := by
  intro pids
  induction pids with
  | nil => intro ids acc _ h; cases h
  | cons pid rest ih =>
    intro ids acc hbound h
    have hrest : rest.length * (b + f) ≤ ids.length :=
      le_trans (Nat.mul_le_mul_right _ (Nat.le_succ _)) hbound
    unfold buildLoop at h
    split at h
    · exact ih ids acc hrest h
    · split at h
      · cases h
      · have hbf : b + f ≤ ids.length := by
          calc b + f ≤ rest.length * (b + f) + (b + f) := Nat.le_add_left _ _
            _ = (rest.length + 1) * (b + f) := by ring
            _ ≤ ids.length := hbound
        rw [if_pos hbf] at h
        refine ih (ids.drop (b + f)) _ ?_ h
        rw [List.length_drop]
        refine Nat.le_sub_of_add_le ?_
        calc rest.length * (b + f) + (b + f)
            = (rest.length + 1) * (b + f) := by ring
          _ ≤ ids.length := by simpa using hbound
    -- remaining case: some .badPid ≠ none handled by split

/-- A nonblank non-alphanumeric participant ID anywhere in the list makes
the record-building loop stop with `badPid`, provided the pool is big
enough to survive the participants before it. -/
lemma buildLoop_badPid (b f : Nat) :
    ∀ (pids ids : List String) (acc : List Study),
      pids.length * (b + f) ≤ ids.length →
      (∃ pid ∈ pids, pid ≠ "" ∧ pyIsAlnum pid = false) →
      buildLoop b f pids ids acc = some .badPid := by
  intro pids
  induction pids with
  | nil =>
    intro ids acc _ hbad
    rcases hbad with ⟨pid, hmem, _⟩
    cases hmem
  | cons pid rest ih =>
    intro ids acc hbound hbad
    have hrest : rest.length * (b + f) ≤ ids.length :=
      le_trans (Nat.mul_le_mul_right _ (Nat.le_succ _)) hbound
    unfold buildLoop
    by_cases hblank : pid = ""
    · rw [if_pos hblank]
      refine ih ids acc hrest ?_
      rcases hbad with ⟨q, hq, hqne, hqal⟩
      rcases List.mem_cons.mp hq with rfl | hq
      · exact absurd hblank hqne
      · exact ⟨q, hq, hqne, hqal⟩
    · rw [if_neg hblank]
      by_cases halnum : pyIsAlnum pid = false
      · simp [halnum]
      · have halnum' : pyIsAlnum pid = true := by
          cases hv : pyIsAlnum pid
          · exact absurd hv halnum
          · rfl
        rw [if_neg (by simp [halnum'])]
        have hbf : b + f ≤ ids.length := by
          calc b + f ≤ rest.length * (b + f) + (b + f) := Nat.le_add_left _ _
            _ = (rest.length + 1) * (b + f) := by ring
            _ ≤ ids.length := hbound
        rw [if_pos hbf]
        refine ih (ids.drop (b + f)) _ ?_ ?_
        · rw [List.length_drop]
          refine Nat.le_sub_of_add_le ?_
          calc rest.length * (b + f) + (b + f)
              = (rest.length + 1) * (b + f) := by ring
            _ ≤ ids.length := by simpa using hbound
        · rcases hbad with ⟨q, hq, hqne, hqal⟩
          rcases List.mem_cons.mp hq with rfl | hq
          · rw [halnum'] at hqal; cases hqal
          · exact ⟨q, hq, hqne, hqal⟩

/-- If every participant line is blank, the record-building loop skips
them all and returns the accumulator unchanged. -/
lemma buildLoop_all_blank (b f : Nat) :
    ∀ (pids ids : List String) (acc : List Study),
      (∀ pid ∈ pids, pid = "") →
      buildLoop b f pids ids acc = some (.records acc) := by
  intro pids
  induction pids with
  | nil => intro ids acc _; rfl
  | cons pid rest ih =>
    intro ids acc hblank
    unfold buildLoop
    rw [if_pos (hblank pid (List.mem_cons_self pid rest))]
    exact ih ids acc (fun q hq => hblank q (List.mem_cons_of_mem pid hq))

/-- The codes of a block of records built by `mkStudy` are the codes they
were built from. -/
lemma map_study_id_mkStudy (pid : String) (st : StudyType)
    (l : List String) :
    (l.map (fun sid => mkStudy sid pid st)).map (fun r => r.study_id) =
      l := by
  induction l with
  | nil => rfl
  | cons a l ih =>
    simp only [List.map_cons]
    rw [ih]
    rfl

/-- Provenance of the built records' codes: every successful run of the
record-building loop draws its `study_id`s as a prefix of the allocated
pool, appended to the accumulator's. -/
lemma buildLoop_records_ids (b f : Nat) :
    ∀ (pids ids : List String) (acc rsAcc : List Study),
      buildLoop b f pids ids acc = some (.records rsAcc) →
      ∃ k, rsAcc.map (fun r => r.study_id) =
        acc.map (fun r => r.study_id) ++ ids.take k := by
  intro pids
  induction pids with
  | nil =>
    intro ids acc rsAcc h
    unfold buildLoop at h
    injection h with h
    injection h with h
    subst h
    exact ⟨0, by simp⟩
  | cons pid rest ih =>
    intro ids acc rsAcc h
    unfold buildLoop at h
    split at h
    · rcases ih ids acc rsAcc h with ⟨k, hk⟩
      exact ⟨k, hk⟩
    · split at h
      · injection h with h; cases h
      · split at h
        · rcases ih (ids.drop (b + f)) _ rsAcc h with ⟨k, hk⟩
          refine ⟨b + f + k, ?_⟩
          have hsplit : ids.take (b + f + k) =
              ids.take b ++
                ((ids.drop b).take f ++ (ids.drop (b + f)).take k) := by
            rw [List.take_add, List.take_add, List.append_assoc]
          rw [hk, List.map_append, List.map_append,
            map_study_id_mkStudy, map_study_id_mkStudy, hsplit]
          simp [List.append_assoc]
        · cases h

/-- `create_studies` reduced past its four validation gates. -/
lemma create_studies_main (db : DB) (cands pids : List String) (b f : Int)
    (h1 : ¬(b < 0 ∨ f < 0)) (h2 : ¬(b = 0 ∧ f = 0))
    (h3 : ¬(pids.length = 0))
    (h4 : ¬(1000 < (pids.length : Int) * (b + f))) :
    create_studies db cands pids b f =
      match generate_new_study_ids db cands
          (pids.length * (b + f).toNat) with
      | none => (.allocationHang, db)
      | some ids =>
        match buildLoop b.toNat f.toNat pids ids [] with
        | none => (.serverError, db)
        | some .badPid => (.clientError msgBadPid, db)
        | some (.records rs) =>
          if rs = [] then (.serverError, db)
          else (.ok rs, { db with studies := db.studies ++ rs }) := by
  unfold create_studies
  rw [if_neg h1, if_neg h2, if_neg h3, if_neg h4]

/-- C1: a terminating run of `generate_new_study_ids` returns exactly `n`
codes, pairwise distinct and distinct from every persisted `study_id`;
and because the whole batch is allocated (against the pre-state) before
the single bulk insert of `create_studies`, any successfully persisted
batch of studies likewise has pairwise-distinct codes, all absent from
the pre-state's studies collection. -/
theorem generate_new_study_ids_unique :
    (∀ (db : DB) (cands : List String) (n : Nat) (ids : List String),
        0 < n →
        generate_new_study_ids db cands n = some ids →
        ids.length = n ∧ ids.Nodup ∧
          ∀ x ∈ ids, x ∉ db.studies.map (fun s => s.study_id)) ∧
    (∀ (db db' : DB) (cands pids : List String) (b f : Int)
        (rs : List Study),
        create_studies db cands pids b f = (.ok rs, db') →
        (rs.map (fun r => r.study_id)).Nodup ∧
          ∀ x ∈ rs.map (fun r => r.study_id),
            x ∉ db.studies.map (fun s => s.study_id)) := by
  constructor
  · intro db cands n ids _ h
    unfold generate_new_study_ids at h
    exact genLoop_sound _ n cands [] ids List.nodup_nil
      (fun x hx => absurd hx (List.not_mem_nil x)) (Nat.zero_le n) h
  · intro db db' cands pids b f rs h
    by_cases h1 : b < 0 ∨ f < 0
    · unfold create_studies at h
      rw [if_pos h1] at h
      simp at h
    · by_cases h2 : b = 0 ∧ f = 0
      · unfold create_studies at h
        rw [if_neg h1, if_pos h2] at h
        simp at h
      · by_cases h3 : pids.length = 0
        · unfold create_studies at h
          rw [if_neg h1, if_neg h2, if_pos h3] at h
          simp at h
        · by_cases h4 : 1000 < (pids.length : Int) * (b + f)
          · unfold create_studies at h
            rw [if_neg h1, if_neg h2, if_neg h3, if_pos h4] at h
            simp at h
          · rw [create_studies_main db cands pids b f h1 h2 h3 h4] at h
            split at h
            · simp at h
            · rename_i ids hgen
              split at h
              · simp at h
              · simp at h
              · rename_i rs' hbuild
                split at h
                · simp at h
                · injection h with hfst hsnd
                  injection hfst with hfst
                  subst hfst
                  unfold generate_new_study_ids at hgen
                  rcases genLoop_sound _ _ cands [] ids List.nodup_nil
                      (fun x hx => absurd hx (List.not_mem_nil x))
                      (Nat.zero_le _) hgen with ⟨_, hnd, hfr⟩
                  rcases buildLoop_records_ids _ _ pids ids [] rs' hbuild
                    with ⟨k, hk⟩
                  simp only [List.map_nil, List.nil_append] at hk
                  rw [hk]
                  refine ⟨List.Nodup.sublist (List.take_sublist k ids) hnd,
                    ?_⟩
                  intro x hx
                  exact hfr x ((List.take_sublist k ids).subset hx)

/-- Witness for C1 (first component, at a concrete input). -/
theorem generate_new_study_ids_unique_witness :
    (["bbbb", "aaaa"] : List String).length = 2 ∧
    (["bbbb", "aaaa"] : List String).Nodup ∧
    ∀ x ∈ (["bbbb", "aaaa"] : List String),
      x ∉ (DB.mk [] []).studies.map (fun s => s.study_id) :=
  generate_new_study_ids_unique.1 ⟨[], []⟩ ["aaaa", "bbbb"] 2
    ["bbbb", "aaaa"] (by decide) (by decide)

/-- C4 (amended): `create_studies` validates fail-fast, first violation
winning, in this order: counts nonnegative, then at least one count
nonzero, then participant list nonempty — checked on the *raw* submitted
list, before blank-line filtering — then raw-list total
`len(ids) * (baselines + followups)` at most 1000, then (once batch
allocation has terminated) each nonblank participant id alphanumeric.
Each of these violations yields a 400 client error; but a nonempty list
made only of blank lines passes every gate and ends in a server error at
the empty bulk insert, not a client validation error. -/
theorem create_studies_validation_order
    (db : DB) (cands pids : List String) (b f : Int) :
    ((b < 0 ∨ f < 0) →
      (create_studies db cands pids b f).1 = .clientError msgNonnegative) ∧
    (¬(b < 0 ∨ f < 0) → b = 0 ∧ f = 0 →
      (create_studies db cands pids b f).1 = .clientError msgNotBothZero) ∧
    (¬(b < 0 ∨ f < 0) → ¬(b = 0 ∧ f = 0) → pids.length = 0 →
      (create_studies db cands pids b f).1 = .clientError msgEmptyList) ∧
    (¬(b < 0 ∨ f < 0) → ¬(b = 0 ∧ f = 0) → ¬(pids.length = 0) →
      1000 < (pids.length : Int) * (b + f) →
      (create_studies db cands pids b f).1 = .clientError msgTooMany) ∧
    (∀ ids : List String,
      ¬(b < 0 ∨ f < 0) → ¬(b = 0 ∧ f = 0) → ¬(pids.length = 0) →
      ¬(1000 < (pids.length : Int) * (b + f)) →
      generate_new_study_ids db cands (pids.length * (b + f).toNat) =
        some ids →
      (∃ pid ∈ pids, pid ≠ "" ∧ pyIsAlnum pid = false) →
      (create_studies db cands pids b f).1 = .clientError msgBadPid) ∧
    (∀ ids : List String,
      ¬(b < 0 ∨ f < 0) → ¬(b = 0 ∧ f = 0) → ¬(pids.length = 0) →
      ¬(1000 < (pids.length : Int) * (b + f)) →
      generate_new_study_ids db cands (pids.length * (b + f).toNat) =
        some ids →
      (∀ pid ∈ pids, pid = "") →
      (create_studies db cands pids b f).1 = .serverError) := by
  refine ⟨?_, ?_, ?_, ?_, ?_, ?_⟩
  · intro h1
    unfold create_studies
    rw [if_pos h1]
  · intro h1 h2
    unfold create_studies
    rw [if_neg h1, if_pos h2]
  · intro h1 h2 h3
    unfold create_studies
    rw [if_neg h1, if_neg h2, if_pos h3]
  · intro h1 h2 h3 h4
    unfold create_studies
    rw [if_neg h1, if_neg h2, if_neg h3, if_pos h4]
  · intro ids h1 h2 h3 h4 hgen hbad
    rw [create_studies_main db cands pids b f h1 h2 h3 h4, hgen]
    have hlen : ids.length = pids.length * (b + f).toNat := by
      unfold generate_new_study_ids at hgen
      exact (genLoop_sound _ _ cands [] ids List.nodup_nil
        (fun x hx => absurd hx (List.not_mem_nil x))
        (Nat.zero_le _) hgen).1
    have h0b : 0 ≤ b := le_of_not_lt (fun hb => h1 (Or.inl hb))
    have h0f : 0 ≤ f := le_of_not_lt (fun hf => h1 (Or.inr hf))
    have htn : (b + f).toNat = b.toNat + f.toNat := Int.toNat_add h0b h0f
    have hbound : pids.length * (b.toNat + f.toNat) ≤ ids.length := by
      rw [hlen, htn]
    show (match buildLoop b.toNat f.toNat pids ids [] with
        | none => (CreateOutcome.serverError, db)
        | some BuildResult.badPid =>
          (CreateOutcome.clientError msgBadPid, db)
        | some (BuildResult.records rs) =>
          if rs = [] then (CreateOutcome.serverError, db)
          else (CreateOutcome.ok rs,
            { db with studies := db.studies ++ rs })).1 =
      CreateOutcome.clientError msgBadPid
    rw [buildLoop_badPid b.toNat f.toNat pids ids [] hbound hbad]
  · intro ids h1 h2 h3 h4 hgen hblank
    rw [create_studies_main db cands pids b f h1 h2 h3 h4, hgen]
    show (match buildLoop b.toNat f.toNat pids ids [] with
        | none => (CreateOutcome.serverError, db)
        | some BuildResult.badPid =>
          (CreateOutcome.clientError msgBadPid, db)
        | some (BuildResult.records rs) =>
          if rs = [] then (CreateOutcome.serverError, db)
          else (CreateOutcome.ok rs,
            { db with studies := db.studies ++ rs })).1 =
      CreateOutcome.serverError
    rw [buildLoop_all_blank b.toNat f.toNat pids ids [] hblank]
    rfl

/-- Witness for the amended C4 (first gate at a concrete input). -/
theorem create_studies_validation_order_witness :
    (create_studies ⟨[], []⟩ [] ["p1"] (-1) 1).1 =
      .clientError msgNonnegative :=
  (create_studies_validation_order ⟨[], []⟩ [] ["p1"] (-1) 1).1
    (Or.inl (by decide))

/-- C4 counterexample: the submitted list `[""]` is empty after blank-line
filtering, yet it passes every validation gate (the emptiness check runs
on the raw list) and the request ends in a server error at the empty bulk
insert — not the client validation error the claimed order requires. -/
theorem create_studies_blank_only_counterexample :
    (create_studies ⟨[], []⟩ ["aaaa", "bbbb"] [""] 1 1).1 = .serverError ∧
    ∀ m, (CreateOutcome.serverError : CreateOutcome) ≠ .clientError m :=
  ⟨by decide, fun m h => CreateOutcome.noConfusion h⟩

/-- C5: if any nonblank participant id in the submitted list fails the
alphanumeric check — wherever it sits in the list — then (provided batch
allocation terminates) the whole request is answered with a 400 client
error and the database is unchanged: no study from the request is
persisted. (Blank lines are skipped by the loop, so only nonblank ids are
ever checked.) -/
theorem create_studies_nonalnum_rejects_batch
    (db : DB) (cands pids : List String) (b f : Int) (ids : List String)
    (hbad : ∃ pid ∈ pids, pid ≠ "" ∧ pyIsAlnum pid = false)
    (halloc : generate_new_study_ids db cands
        (pids.length * (b + f).toNat) = some ids) :
    (∃ m, (create_studies db cands pids b f).1 = .clientError m) ∧
    (create_studies db cands pids b f).2 = db := by
  by_cases h1 : b < 0 ∨ f < 0
  · constructor
    · exact ⟨msgNonnegative, by unfold create_studies; rw [if_pos h1]⟩
    · unfold create_studies; rw [if_pos h1]
  · by_cases h2 : b = 0 ∧ f = 0
    · constructor
      · exact ⟨msgNotBothZero, by
          unfold create_studies; rw [if_neg h1, if_pos h2]⟩
      · unfold create_studies; rw [if_neg h1, if_pos h2]
    · by_cases h3 : pids.length = 0
      · constructor
        · exact ⟨msgEmptyList, by
            unfold create_studies; rw [if_neg h1, if_neg h2, if_pos h3]⟩
        · unfold create_studies; rw [if_neg h1, if_neg h2, if_pos h3]
      · by_cases h4 : 1000 < (pids.length : Int) * (b + f)
        · constructor
          · exact ⟨msgTooMany, by
              unfold create_studies
              rw [if_neg h1, if_neg h2, if_neg h3, if_pos h4]⟩
          · unfold create_studies
            rw [if_neg h1, if_neg h2, if_neg h3, if_pos h4]
        · have h0b : 0 ≤ b := le_of_not_lt (fun hb => h1 (Or.inl hb))
          have h0f : 0 ≤ f := le_of_not_lt (fun hf => h1 (Or.inr hf))
          have hlen : ids.length = pids.length * (b + f).toNat := by
            unfold generate_new_study_ids at halloc
            exact (genLoop_sound _ _ cands [] ids List.nodup_nil
              (fun x hx => absurd hx (List.not_mem_nil x))
              (Nat.zero_le _) halloc).1
          have hbound : pids.length * (b.toNat + f.toNat) ≤ ids.length := by
            rw [hlen, Int.toNat_add h0b h0f]
          have hpair : create_studies db cands pids b f =
              (.clientError msgBadPid, db) := by
            rw [create_studies_main db cands pids b f h1 h2 h3 h4, halloc]
            show (match buildLoop b.toNat f.toNat pids ids [] with
                | none => (CreateOutcome.serverError, db)
                | some BuildResult.badPid =>
                  (CreateOutcome.clientError msgBadPid, db)
                | some (BuildResult.records rs) =>
                  if rs = [] then (CreateOutcome.serverError, db)
                  else (CreateOutcome.ok rs,
                    { db with studies := db.studies ++ rs })) =
              (CreateOutcome.clientError msgBadPid, db)
            rw [buildLoop_badPid b.toNat f.toNat pids ids [] hbound hbad]
          rw [hpair]
          exact ⟨⟨msgBadPid, rfl⟩, rfl⟩

/-- Witness for C5 at a concrete input. -/
theorem create_studies_nonalnum_rejects_batch_witness :
    (∃ m, (create_studies ⟨[], []⟩ ["aaaa", "bbbb"] ["a b"] 1 1).1 =
      .clientError m) ∧
    (create_studies ⟨[], []⟩ ["aaaa", "bbbb"] ["a b"] 1 1).2 = ⟨[], []⟩ :=
  create_studies_nonalnum_rejects_batch ⟨[], []⟩ ["aaaa", "bbbb"] ["a b"]
    1 1 ["bbbb", "aaaa"]
    ⟨"a b", by decide, by decide, by decide⟩ (by decide)
